import Mathlib

/-
  Verification of the validation rules of `traderjoes/Validation.py`.

  The Python module is shallowly embedded: JSON-compatible Python values
  become the inductive type `Json`; a Python `dict` holding a record is an
  association list `Dict`; every check function of the `Validation` class is
  translated to a Lean function with the same name.  Code that can raise a
  Python exception (`TypeError` from hashing an unhashable value, iterating a
  non-iterable, regex-matching a non-string, or comparing incomparable
  values) is modelled in `Except String`, with `.error` standing for a raised
  exception and `.ok` for a normal return.
-/

set_option maxRecDepth 10000

namespace TJ

/-- JSON-compatible Python values: `None`, `bool`, `int`, `str`, `list`, `dict`. -/
inductive Json where
  | null : Json
  | bool : Bool → Json
  | int : Int → Json
  | str : String → Json
  | list : List Json → Json
  | obj : List (String × Json) → Json

/-- A Python dict with string keys, as an association list (keys unique,
insertion order preserved, as in Python 3.7+). -/
abbrev Dict := List (String × Json)

/-- Python `key in dict`. -/
def dictHasKey (d : Dict) (k : String) : Bool :=
  d.any (fun kv => kv.1 == k)

/-- First-match lookup in an association list. -/
def dictGet? (d : Dict) (k : String) : Option Json :=
  match d with
  | [] => none
  | (k0, v) :: rest => if k0 == k then some v else dictGet? rest k

/-- Python `dict.get(k)`: the stored value, or `None` when the key is absent. -/
def pyGet (d : Dict) (k : String) : Json :=
  (dictGet? d k).getD .null

/-- Python truthiness of a JSON value (`bool(x)`). -/
def pyTruthy : Json → Bool
  | .null => false
  | .bool b => b
  | .int n => n != 0
  | .str s => s != ""
  | .list xs => !xs.isEmpty
  | .obj kvs => !kvs.isEmpty

/-- Python iteration over a JSON value: lists yield their elements, strings
their characters, dicts their keys; other values raise `TypeError`. -/
def pyIter : Json → Except String (List Json)
  | .list xs => .ok xs
  | .str s => .ok (s.data.map (fun c => .str c.toString))
  | .obj kvs => .ok (kvs.map (fun kv => .str kv.1))
  | _ => .error "TypeError: object is not iterable"

/-- Hash key of a hashable Python value. `True`/`False` hash and compare equal
to `1`/`0`, so booleans and ints share the numeric key; lists and dicts are
unhashable (`none`). -/
inductive HKey where
  | knull : HKey
  | knum : Int → HKey
  | kstr : String → HKey
deriving DecidableEq

/-- Key of a hashable value, `none` for unhashable ones. -/
def pyKey : Json → Option HKey
  | .null => some .knull
  | .bool b => some (.knum (if b then 1 else 0))
  | .int n => some (.knum n)
  | .str s => some (.kstr s)
  | .list _ => none
  | .obj _ => none

/-- Whether a value may be stored in / looked up from a Python `set`. -/
def hashable (j : Json) : Bool :=
  (pyKey j).isSome

/-- Python `==` restricted to hashable values (the only use sites are set
membership tests); unhashable operands never reach this comparison. -/
def pyEq (a b : Json) : Bool :=
  match pyKey a, pyKey b with
  | some x, some y => decide (x = y)
  | _, _ => false

/-- Python `str(x)` as used inside the f-string failure messages.  Only
hashable values ever reach an f-string in this module (unhashable ones raise
beforehand), so the list/dict renderings are unreachable placeholders. -/
def pyRepr : Json → String
  | .null => "None"
  | .bool true => "True"
  | .bool false => "False"
  | .int n => toString n
  | .str s => s
  | .list _ => "<list>"
  | .obj _ => "<dict>"

/-- A single-quote character, used to build the Python message strings. -/
def sq : String := (Char.ofNat 39).toString

/-! ## Check 4.1 — structural presence (`Validation.is_valid_product_data`) -/

/-- The seven required keys of `is_valid_product_data`, in source order. -/
def required_keys : List String :=
  ["brand", "title", "product_id", "url", "retail_price", "image", "category"]

/-- `Validation.is_valid_product_data`: `False` for a non-dict, `False` when a
required key is missing, `True` otherwise.  Returns a bare boolean. -/
def is_valid_product_data : Json → Bool
  | .obj d => required_keys.all (fun k => dictHasKey d k)
  | _ => false

/-! ## Check 4.2 — schema types (`Validation.validate_product_data_schema`) -/

/-- The Python classes appearing in `expected_structure`. -/
inductive PyClass where
  | pstr : PyClass
  | pint : PyClass
  | plist : PyClass
  | pdict : PyClass
  | pnone : PyClass
deriving DecidableEq

/-- Python `isinstance` against one class.  `bool` is a subclass of `int`. -/
def isinstance : Json → PyClass → Bool
  | .str _, .pstr => true
  | .int _, .pint => true
  | .bool _, .pint => true
  | .list _, .plist => true
  | .obj _, .pdict => true
  | .null, .pnone => true
  | _, _ => false

/-- Name of a `PyClass`, as printed by Python. -/
def PyClass.clsName : PyClass → String
  | .pstr => "str"
  | .pint => "int"
  | .plist => "list"
  | .pdict => "dict"
  | .pnone => "NoneType"

/-- Python rendering of a class object, e.g. "<class 'str'>". -/
def PyClass.clsRepr (c : PyClass) : String :=
  "<class " ++ sq ++ c.clsName ++ sq ++ ">"

/-- Python `type(x)` rendered as in the mismatch messages. -/
def pyTypeRepr (j : Json) : String :=
  "<class " ++ sq ++
    (match j with
     | .null => "NoneType"
     | .bool _ => "bool"
     | .int _ => "int"
     | .str _ => "str"
     | .list _ => "list"
     | .obj _ => "dict") ++ sq ++ ">"

/-- An entry of `expected_structure`: either a single class or a two-class
tuple such as `(dict, type(None))`. -/
inductive TypeSpec where
  | single : PyClass → TypeSpec
  | pair : PyClass → PyClass → TypeSpec
deriving DecidableEq

/-- `isinstance(x, spec)`, where a tuple spec accepts either class. -/
def TypeSpec.check (j : Json) : TypeSpec → Bool
  | .single c => isinstance j c
  | .pair a b => isinstance j a || isinstance j b

/-- Python rendering of the expected type in a mismatch message. -/
def TypeSpec.reprT : TypeSpec → String
  | .single c => c.clsRepr
  | .pair a b => "(" ++ a.clsRepr ++ ", " ++ b.clsRepr ++ ")"

/-- The `expected_structure` dict of `validate_product_data_schema`,
in source (insertion) order. -/
def expected_structure : List (String × TypeSpec) :=
  [("brand", .single .pstr),
   ("title", .single .pstr),
   ("description", .single .pstr),
   ("image", .single .pstr),
   ("images", .single .plist),
   ("retail_price", .single .pstr),
   ("final_price", .single .pstr),
   ("url", .single .pstr),
   ("product_id", .single .pint),
   ("category", .single .pstr),
   ("sales_size", .single .pstr),
   ("availability", .single .pstr),
   ("Buzzwords", .single .plist),
   ("nutrition", .pair .pdict .pnone),
   ("ingredients", .pair .plist .pnone),
   ("country_of_origin", .pair .pstr .pnone)]

/-- Message for a missing schema field. -/
def missingMsg (k : String) : String :=
  "Missing key " ++ sq ++ k ++ sq ++ " in product data."

/-- Message for a schema field present with the wrong type. -/
def mismatchMsg (k : String) (ts : TypeSpec) (v : Json) : String :=
  "Key " ++ sq ++ k ++ sq ++ " has incorrect type. Expected type: " ++
    ts.reprT ++ ", Actual type: " ++ pyTypeRepr v

/-- One iteration of the loop of `validate_product_data_schema`: the error
contributed by one schema field, if any. -/
def fieldError (d : Dict) (kts : String × TypeSpec) : Option String :=
  if dictHasKey d kts.1 = false then some (missingMsg kts.1)
  else if kts.2.check (pyGet d kts.1) = false then
    some (mismatchMsg kts.1 kts.2 (pyGet d kts.1))
  else none

/-- The second component of a `ValidationOutcome`: a single message or a list
of accumulated messages. -/
inductive Reason where
  | str : String → Reason
  | list : List String → Reason
deriving DecidableEq

/-- `Validation.validate_product_data_schema`: accumulates every missing-key
and type-mismatch message over the 16 schema fields, without short-circuiting. -/
def validate_product_data_schema (d : Dict) : Bool × Reason :=
  let validation_errors := expected_structure.filterMap (fieldError d)
  if validation_errors.isEmpty then (true, .str "Product data schema is valid.")
  else (false, .list validation_errors)

/-! ## Check 4.3 — price consistency (`Validation.validate_selling_price`) -/

/-- Python `a <= b` on the value kinds a price comparison can meet without
raising: numbers (`int`, with `bool` as 0/1) and strings (code-point
lexicographic).  Any other combination raises `TypeError` (`none`).
(Python also orders two lists elementwise; no price in this module is a list,
so that case is folded into `TypeError` here.) -/
def pyLe : Json → Json → Option Bool
  | .int a, .int b => some (decide (a ≤ b))
  | .int a, .bool b => some (decide (a ≤ (if b then 1 else 0)))
  | .bool a, .int b => some (decide ((if a then (1 : Int) else 0) ≤ b))
  | .bool a, .bool b => some (decide ((if a then (1 : Int) else 0) ≤ (if b then 1 else 0)))
  | .str a, .str b => some (decide (a ≤ b))
  | _, _ => none

/-- `Validation.validate_selling_price`: when both `selling_price` and
`original_price` are non-`None`, returns the bare boolean of
`selling_price <= original_price`; otherwise returns `True`. -/
def validate_selling_price (d : Dict) : Except String Bool :=
  match pyGet d "selling_price", pyGet d "original_price" with
  | .null, _ => .ok true
  | _, .null => .ok true
  | sp, op =>
    match pyLe sp op with
    | some b => .ok b
    | none => .error "TypeError: unsupported operand types for comparison"

/-! ## Check 4.4 — image presence and validity (`Validation.validate_image_data`) -/

/-- The generator predicate `isinstance(img, str) and img.startswith('http')`. -/
def isHttpStr : Json → Bool
  | .str s => s.data.take 4 == "http".data
  | _ => false

/-- `Validation.validate_image_data`. -/
def validate_image_data (d : Dict) : Except String (Bool × String) :=
  match pyGet d "image" with
  | .null => .ok (false, "Image key cannot be null")
  | _ =>
    let images := pyGet d "images"
    if pyTruthy images = false then
      .ok (false, "Images list should contain at least one URL")
    else
      match pyIter images with
      | .error e => .error e
      | .ok xs =>
        if xs.any isHttpStr then .ok (true, "")
        else .ok (false, "Images list should contain at least one URL")

/-! ## Check 4.5 — URL format (`Validation.validate_url_format`) -/

/-- The characters Python `re` counts as whitespace for `\S` (ASCII range;
no URL in the claims involves non-ASCII whitespace). -/
def isPyWhitespace (c : Char) : Bool :=
  c = ' ' || c = '\t' || c = '\n' || c = '\r' || c = (Char.ofNat 11) || c = (Char.ofNat 12)

/-- Matching of the regex tail `\S+$` against the remaining characters:
one or more non-whitespace characters, where `$` also matches just before a
single newline at the end of the string (Python `re` semantics). -/
def sBodyB : List Char → Bool
  | [] => false
  | [c] => !isPyWhitespace c
  | c :: rest => !isPyWhitespace c && (rest == ['\n'] || sBodyB rest)

/-- `re.match(r'^https?://\S+$', s)` as a boolean. -/
def urlMatch (s : String) : Bool :=
  let cs := s.data
  if cs.take 7 = "http://".data then sBodyB (cs.drop 7)
  else if cs.take 8 = "https://".data then sBodyB (cs.drop 8)
  else false

/-- `Validation.validate_url_format`.  `re.match` raises `TypeError` when the
present `url` value is not a string. -/
def validate_url_format (d : Dict) : Except String (Bool × String) :=
  match pyGet d "url" with
  | .null => .ok (true, "")
  | .str s =>
    if urlMatch s then .ok (true, "")
    else .ok (false, "URL should be in standardized format (e.g., http://example.com)")
  | _ => .error "TypeError: expected string or bytes-like object"

/-! ## Check 4.6 — product-ID uniqueness (`Validation.validate_product_id_uniqueness`) -/

/-- `Validation.validate_product_id_uniqueness`.  The shared seen-ID set is an
explicit list of (hashable) values; the check returns the updated set.
Looking up an unhashable id in the set raises `TypeError`. -/
def validate_product_id_uniqueness (d : Dict) (product_ids : List Json) :
    Except String ((Bool × String) × List Json) :=
  let product_id := pyGet d "product_id"
  if hashable product_id = false then .error "TypeError: unhashable type"
  else if product_ids.any (fun x => pyEq product_id x) then
    .ok ((false, "Duplicate product_id: " ++ pyRepr product_id), product_ids)
  else
    .ok ((true, ""), product_id :: product_ids)

/-! ## Check 4.7 — duplicate image URLs (`Validation.validate_duplicate_images`) -/

/-- The loop of `validate_duplicate_images` over the images, threading the
local `unique_images` set.  Testing an unhashable element for membership
raises `TypeError`. -/
def dupScan : List Json → List Json → Except String (Bool × String)
  | [], _ => .ok (true, "")
  | x :: rest, seen =>
    if hashable x = false then .error "TypeError: unhashable type"
    else if seen.any (fun y => pyEq x y) then
      .ok (false, "Duplicate image URL: " ++ pyRepr x)
    else dupScan rest (x :: seen)

/-- `Validation.validate_duplicate_images`. -/
def validate_duplicate_images (d : Dict) : Except String (Bool × String) :=
  let images := pyGet d "images"
  if pyTruthy images then
    match pyIter images with
    | .error e => .error e
    | .ok xs => dupScan xs []
  else .ok (true, "")

/-! ## 4.8 — orchestration (`Validation.validate_pdp_data`) -/

/-- The check sequence of `validate_pdp_data` after the structural check has
passed, on the record dict: schema → image → url → uniqueness → duplicate
images, short-circuiting on the first failure. -/
def validate_pdp_obj (d : Dict) (ids : List Json) :
    Except String ((Bool × Reason) × List Json) :=
  match validate_product_data_schema d with
  | (false, msg) => .ok ((false, msg), ids)
  | (true, _) =>
    match validate_image_data d with
    | .error e => .error e
    | .ok (false, m) => .ok ((false, .str m), ids)
    | .ok (true, _) =>
      match validate_url_format d with
      | .error e => .error e
      | .ok (false, m) => .ok ((false, .str m), ids)
      | .ok (true, _) =>
        match validate_product_id_uniqueness d ids with
        | .error e => .error e
        | .ok ((false, m), ids2) => .ok ((false, .str m), ids2)
        | .ok ((true, _), ids2) =>
          match validate_duplicate_images d with
          | .error e => .error e
          | .ok (false, m) => .ok ((false, .str m), ids2)
          | .ok (true, _) => .ok ((true, .str "Product data is valid"), ids2)

/-- `Validation.validate_pdp_data`: the single-record orchestrator.  The
shared `product_ids` set (a module-level global in the source) is passed and
returned explicitly.  The initial `try` block of the source only performs an
assignment and can never raise, so it is not represented. -/
def validate_pdp_data (j : Json) (ids : List Json) :
    Except String ((Bool × Reason) × List Json) :=
  match j with
  | .obj d =>
    if is_valid_product_data (.obj d) then validate_pdp_obj d ids
    else .ok ((false, .str "Invalid product data structure"), ids)
  | _ => .ok ((false, .str "Invalid product data structure"), ids)

/-! ## 4.9 — batch runner (the `__main__` driver loop) -/

/-- Rendering of a failure message's reason inside the driver's f-string:
a list of strings prints as Python prints a list. -/
def Reason.render : Reason → String
  | .str s => s
  | .list l => "[" ++ String.intercalate ", " (l.map (fun s => sq ++ s ++ sq)) ++ "]"

/-- The `__main__` loop: validates each record in order with the single
shared seen-ID set, collecting a tagged message for every invalid record.
An exception raised by the orchestrator propagates and aborts the batch. -/
def run_batch_loop : List Json → Nat → List Json → List String →
    Except String (List String)
  | [], _, _, acc => .ok acc.reverse
  | r :: rest, idx, ids, acc =>
    match validate_pdp_data r ids with
    | .error e => .error e
    | .ok ((ok, msg), ids2) =>
      run_batch_loop rest (idx + 1) ids2
        (if ok then acc
         else ("Product data at index " ++ toString idx ++ " is not valid: " ++
                msg.render) :: acc)

/-- The batch runner on a list of records, 1-indexed, with a fresh seen-ID
set. -/
def run_batch (records : List Json) : Except String (List String) :=
  run_batch_loop records 1 [] []

/-! ## Specification-side definitions

Definitions in this section follow the wording of the specification (they are
compared against the code-derived functions above), together with concrete
sample records used by witnesses and counterexamples. -/

/-- A schema field violating the record: absent, or present with the wrong
type (spec 4.2). -/
def violB (d : Dict) (kts : String × TypeSpec) : Bool :=
  !dictHasKey d kts.1 || !kts.2.check (pyGet d kts.1)

/-- The message the spec expects for one violating field: the missing-field
message when absent, else the type-mismatch message. -/
def msgOf (d : Dict) (kts : String × TypeSpec) : String :=
  if dictHasKey d kts.1 = false then missingMsg kts.1
  else mismatchMsg kts.1 kts.2 (pyGet d kts.1)

/-- All schema fields the record violates, in schema order. -/
def schemaViolations (d : Dict) : List (String × TypeSpec) :=
  expected_structure.filter (violB d)

/-- The dynamically-typed Python value returned by a check: either a bare
boolean or a `(success, reason)` pair. -/
inductive CheckRet where
  | rbool : Bool → CheckRet
  | rpair : Bool → Reason → CheckRet
deriving DecidableEq

/-- Whether a returned value is a `(success, reason)` pair. -/
def isPairRet : CheckRet → Bool
  | .rbool _ => false
  | .rpair _ _ => true

/-- Return value of `is_valid_product_data` as a Python value. -/
def ret_is_valid_product_data (j : Json) : CheckRet :=
  .rbool (is_valid_product_data j)

/-- Return value of `validate_product_data_schema` as a Python value. -/
def ret_validate_product_data_schema (d : Dict) : CheckRet :=
  .rpair (validate_product_data_schema d).1 (validate_product_data_schema d).2

/-- Return value of `validate_selling_price` as a Python value. -/
def ret_validate_selling_price (d : Dict) : Except String CheckRet :=
  (validate_selling_price d).map (fun b => .rbool b)

/-- Return value of `validate_image_data` as a Python value. -/
def ret_validate_image_data (d : Dict) : Except String CheckRet :=
  (validate_image_data d).map (fun p => .rpair p.1 (.str p.2))

/-- Return value of `validate_url_format` as a Python value. -/
def ret_validate_url_format (d : Dict) : Except String CheckRet :=
  (validate_url_format d).map (fun p => .rpair p.1 (.str p.2))

/-- Return value of `validate_product_id_uniqueness` as a Python value. -/
def ret_validate_product_id_uniqueness (d : Dict) (ids : List Json) :
    Except String CheckRet :=
  (validate_product_id_uniqueness d ids).map (fun p => .rpair p.1.1 (.str p.1.2))

/-- Return value of `validate_duplicate_images` as a Python value. -/
def ret_validate_duplicate_images (d : Dict) : Except String CheckRet :=
  (validate_duplicate_images d).map (fun p => .rpair p.1 (.str p.2))

/-- The uniqueness check applied to every record of a batch in order, with
the seen-ID set threaded across the whole run; an exception aborts the run. -/
def uniqueness_run : List Dict → List Json → Except String (List (Bool × String))
  | [], _ => .ok []
  | d :: rest, ids =>
    match validate_product_id_uniqueness d ids with
    | .error e => .error e
    | .ok (out, ids2) =>
      match uniqueness_run rest ids2 with
      | .error e => .error e
      | .ok outs => .ok (out :: outs)

/-- The product IDs of a batch, in record order. -/
def pidsOf (batch : List Dict) : List Json :=
  batch.map (fun d => pyGet d "product_id")

/-- The outcome the spec predicts for the uniqueness check of one record,
given the IDs of the earlier records. -/
def expectedOut (earlier : List Json) (pid : Json) : Bool × String :=
  if earlier.any (fun x => pyEq pid x) then
    (false, "Duplicate product_id: " ++ pyRepr pid)
  else (true, "")

/-- The outcomes the spec predicts for a batch of product IDs validated in
order: each ID is judged against the IDs seen so far, and every processed ID
joins the seen list. -/
def uniqueness_spec_outs : List Json → List Json → List (Bool × String)
  | [], _ => []
  | pid :: rest, seen => expectedOut seen pid :: uniqueness_spec_outs rest (seen ++ [pid])

/-- The spec's example batch with product-ID sequence `[1, 2, 1]`. -/
def batch121 : List Dict :=
  [[("product_id", .int 1)], [("product_id", .int 2)], [("product_id", .int 1)]]

/-- Body of the URL pattern exactly as the claim words it: one or more
non-whitespace characters extending to the end of the string. -/
def bodyOrigB (t : List Char) : Bool :=
  !t.isEmpty && t.all (fun c => !isPyWhitespace c)

/-- The URL pattern exactly as the claim words it: `http` or `https`, then
`://`, then one or more non-whitespace characters up to the end. -/
def urlOrigB (s : String) : Bool :=
  (s.data.take 7 == "http://".data && bodyOrigB (s.data.drop 7)) ||
  (s.data.take 8 == "https://".data && bodyOrigB (s.data.drop 8))

/-- Body of the URL pattern as amended: one or more non-whitespace
characters extending to the end of the string, or to a single newline ending
the string. -/
def BodyA (t : List Char) : Prop :=
  ∃ core : List Char, (t = core ∨ t = core ++ ['\n']) ∧ core ≠ [] ∧
    ∀ c ∈ core, isPyWhitespace c = false

/-- The amended URL pattern: the string is scheme `http://` or `https://`
followed by a body satisfying `BodyA`. -/
def UrlA (s : String) : Prop :=
  ∃ t : List Char,
    (s.data = "http://".data ++ t ∨ s.data = "https://".data ++ t) ∧ BodyA t

/-- A record satisfying every check of the orchestrator. -/
def sampleDict : Dict :=
  [("brand", .str "b"), ("title", .str "t"), ("description", .str "d"),
   ("image", .str "http://i.jpg"), ("images", .list [.str "http://a.jpg"]),
   ("retail_price", .str "1.0"), ("final_price", .str "1.0"),
   ("url", .str "http://example.com"), ("product_id", .int 1),
   ("category", .str "c"), ("sales_size", .str "s"),
   ("availability", .str "a"), ("Buzzwords", .list []),
   ("nutrition", .null), ("ingredients", .null), ("country_of_origin", .null)]

/-- A record with exactly two schema violations: `brand` has the wrong type
and `title` is missing. -/
def twoViolDict : Dict :=
  [("brand", .int 1), ("description", .str "d"),
   ("image", .str "http://i.jpg"), ("images", .list [.str "http://a.jpg"]),
   ("retail_price", .str "1.0"), ("final_price", .str "1.0"),
   ("url", .str "http://example.com"), ("product_id", .int 1),
   ("category", .str "c"), ("sales_size", .str "s"),
   ("availability", .str "a"), ("Buzzwords", .list []),
   ("nutrition", .null), ("ingredients", .null), ("country_of_origin", .null)]

/-- A schema-conforming record whose `images` list contains a (JSON-legal)
nested list: every check up to 4.6 passes, and the duplicate-image check
raises `TypeError` when it hashes the list element. -/
def badImagesDict : Dict :=
  [("brand", .str "b"), ("title", .str "t"), ("description", .str "d"),
   ("image", .str "http://i.jpg"),
   ("images", .list [.str "http://a.jpg", .list [.str "x"]]),
   ("retail_price", .str "1.0"), ("final_price", .str "1.0"),
   ("url", .str "http://example.com"), ("product_id", .int 7),
   ("category", .str "c"), ("sales_size", .str "s"),
   ("availability", .str "a"), ("Buzzwords", .list []),
   ("nutrition", .null), ("ingredients", .null), ("country_of_origin", .null)]

/-! ## Helper lemmas -/

theorem pyGet_cons_ne {k0 k : String} (v : Json) (d : Dict) (h : (k0 == k) = false) :
    pyGet ((k0, v) :: d) k = pyGet d k := by
  simp [pyGet, dictGet?, h]

theorem dictHasKey_cons_ne {k0 k : String} (v : Json) (d : Dict) (h : (k0 == k) = false) :
    dictHasKey ((k0, v) :: d) k = dictHasKey d k := by
  simp [dictHasKey, h]

theorem pyGet_of_hasKey_false {d : Dict} {k : String} (h : dictHasKey d k = false) :
    pyGet d k = .null := by
  induction d with
  | nil => rfl
  | cons kv rest ih =>
    rcases kv with ⟨k0, v⟩
    simp only [dictHasKey, List.any_cons, Bool.or_eq_false_iff] at h
    simp only [pyGet, dictGet?, h.1, if_false]
    exact ih h.2

theorem list_all_congr {α : Type} {l : List α} {p q : α → Bool}
    (h : ∀ a ∈ l, p a = q a) : l.all p = l.all q := by
  induction l with
  | nil => rfl
  | cons a l ih =>
    simp only [List.all_cons]
    rw [h a (by simp), ih (fun a ha => h a (by simp [ha]))]

theorem list_filterMap_congr {α β : Type} {l : List α} {f g : α → Option β}
    (h : ∀ a ∈ l, f a = g a) : l.filterMap f = l.filterMap g := by
  induction l with
  | nil => rfl
  | cons a l ih =>
    rw [List.filterMap_cons, List.filterMap_cons, h a (by simp),
      ih (fun a ha => h a (by simp [ha]))]

theorem filterMap_if_eq {α β : Type} {l : List α} (p : α → Bool) (f : α → β)
    (g : α → Option β) (hg : ∀ a ∈ l, g a = if p a then some (f a) else none) :
    l.filterMap g = (l.filter p).map f := by
  induction l with
  | nil => rfl
  | cons a l ih =>
    rw [List.filterMap_cons, List.filter_cons, hg a (by simp)]
    by_cases hp : p a = true
    · simp only [hp, if_true, List.map_cons]
      rw [ih (fun a ha => hg a (by simp [ha]))]
    · simp only [Bool.not_eq_true] at hp
      simp only [hp, if_false, Bool.false_eq_true]
      rw [ih (fun a ha => hg a (by simp [ha]))]

/-! ## Claims -/

/-- Claim C8: the structural presence check returns false when the input is
not a mapping or any of the seven required keys (brand, title, product_id,
url, retail_price, image, category) is absent, and true otherwise, with the
stored values never affecting the result. -/
theorem C8_structural_presence :
    (∀ j : Json, (∀ d : Dict, j ≠ .obj d) → is_valid_product_data j = false) ∧
    (∀ d : Dict,
      is_valid_product_data (.obj d) = true ↔
        (dictHasKey d "brand" = true ∧ dictHasKey d "title" = true ∧
         dictHasKey d "product_id" = true ∧ dictHasKey d "url" = true ∧
         dictHasKey d "retail_price" = true ∧ dictHasKey d "image" = true ∧
         dictHasKey d "category" = true)) ∧
    (∀ (d : Dict) (f : String × Json → Json),
      is_valid_product_data (.obj (d.map (fun kv => (kv.1, f kv)))) =
        is_valid_product_data (.obj d)) := by
  refine ⟨?_, ?_, ?_⟩
  · intro j h
    cases j with
    | obj d => exact absurd rfl (h d)
    | null => rfl
    | bool b => rfl
    | int n => rfl
    | str s => rfl
    | list xs => rfl
  · intro d
    simp [is_valid_product_data, required_keys, and_assoc]
  · intro d f
    have hk : ∀ k, dictHasKey (d.map (fun kv => (kv.1, f kv))) k = dictHasKey d k := by
      intro k
      induction d with
      | nil => rfl
      | cons kv rest ih =>
        simp only [List.map_cons, dictHasKey, List.any_cons] at *
        rw [ih]
    simp only [is_valid_product_data]
    exact list_all_congr (fun a _ => hk a)

/-- Witness for C8 at concrete records. -/
theorem C8_witness :
    is_valid_product_data Json.null = false ∧
    is_valid_product_data (Json.obj sampleDict) = true := by
  constructor
  · exact C8_structural_presence.1 Json.null (fun d h => Json.noConfusion h)
  · exact (C8_structural_presence.2.1 sampleDict).mpr
      ⟨rfl, rfl, rfl, rfl, rfl, rfl, rfl⟩

/-- Claim C9: with both prices present and non-null the price check returns
the bare comparison `selling_price <= original_price`; with either absent or
null it returns true; and it depends only on the `selling_price` and
`original_price` fields. -/
theorem C9_price_check :
    (∀ d : Dict, pyGet d "selling_price" = .null →
        validate_selling_price d = .ok true) ∧
    (∀ d : Dict, pyGet d "original_price" = .null →
        validate_selling_price d = .ok true) ∧
    (∀ (d : Dict) (a b : Int), pyGet d "selling_price" = .int a →
        pyGet d "original_price" = .int b →
        validate_selling_price d = .ok (decide (a ≤ b))) ∧
    (∀ (d : Dict) (x y : String), pyGet d "selling_price" = .str x →
        pyGet d "original_price" = .str y →
        validate_selling_price d = .ok (decide (x ≤ y))) ∧
    (∀ d e : Dict, pyGet d "selling_price" = pyGet e "selling_price" →
        pyGet d "original_price" = pyGet e "original_price" →
        validate_selling_price d = validate_selling_price e) := by
  refine ⟨?_, ?_, ?_, ?_, ?_⟩
  · intro d h
    simp [validate_selling_price, h]
  · intro d h
    cases hsp : pyGet d "selling_price" <;> simp [validate_selling_price, hsp, h]
  · intro d a b h1 h2
    simp [validate_selling_price, h1, h2, pyLe]
  · intro d x y h1 h2
    simp [validate_selling_price, h1, h2, pyLe]
  · intro d e h1 h2
    unfold validate_selling_price
    rw [h1, h2]

/-- Witness for C9 at the spec's example prices. -/
theorem C9_witness :
    validate_selling_price
      [("selling_price", Json.int 10), ("original_price", Json.int 20)] = .ok true ∧
    validate_selling_price
      [("selling_price", Json.int 20), ("original_price", Json.int 10)] = .ok false ∧
    validate_selling_price [("original_price", Json.int 10)] = .ok true := by
  refine ⟨?_, ?_, ?_⟩
  · simpa using C9_price_check.2.2.1
      [("selling_price", Json.int 10), ("original_price", Json.int 20)] 10 20 rfl rfl
  · simpa using C9_price_check.2.2.1
      [("selling_price", Json.int 20), ("original_price", Json.int 10)] 20 10 rfl rfl
  · exact C9_price_check.1 [("original_price", Json.int 10)] rfl

/-- Counterexample to C5 as stated: the structural presence check (4.1) and
the price consistency check (4.3) return bare Python booleans, not
`(success, reason)` pairs. -/
theorem C5_counterexample :
    ret_is_valid_product_data (Json.obj sampleDict) = CheckRet.rbool true ∧
    ret_validate_selling_price
      [("selling_price", Json.int 10), ("original_price", Json.int 20)] =
      .ok (CheckRet.rbool true) ∧
    isPairRet (CheckRet.rbool true) = false :=
  ⟨rfl, rfl, rfl⟩

/-- Claim C5 as amended: every check except the structural presence check
(4.1) and the price consistency check (4.3) returns a ValidationOutcome
pair; 4.1 and 4.3 return a bare boolean. -/
theorem C5_return_shapes :
    (∀ j : Json, isPairRet (ret_is_valid_product_data j) = false) ∧
    (∀ (d : Dict) (r : CheckRet), ret_validate_selling_price d = .ok r →
        isPairRet r = false) ∧
    (∀ d : Dict, isPairRet (ret_validate_product_data_schema d) = true) ∧
    (∀ (d : Dict) (r : CheckRet), ret_validate_image_data d = .ok r →
        isPairRet r = true) ∧
    (∀ (d : Dict) (r : CheckRet), ret_validate_url_format d = .ok r →
        isPairRet r = true) ∧
    (∀ (d : Dict) (ids : List Json) (r : CheckRet),
        ret_validate_product_id_uniqueness d ids = .ok r → isPairRet r = true) ∧
    (∀ (d : Dict) (r : CheckRet), ret_validate_duplicate_images d = .ok r →
        isPairRet r = true) := by
  refine ⟨fun j => rfl, ?_, fun d => rfl, ?_, ?_, ?_, ?_⟩
  · intro d r h
    cases hv : validate_selling_price d <;>
      simp [ret_validate_selling_price, Except.map, hv] at h
    simp [← h, isPairRet]
  · intro d r h
    cases hv : validate_image_data d <;>
      simp [ret_validate_image_data, Except.map, hv] at h
    simp [← h, isPairRet]
  · intro d r h
    cases hv : validate_url_format d <;>
      simp [ret_validate_url_format, Except.map, hv] at h
    simp [← h, isPairRet]
  · intro d ids r h
    cases hv : validate_product_id_uniqueness d ids <;>
      simp [ret_validate_product_id_uniqueness, Except.map, hv] at h
    simp [← h, isPairRet]
  · intro d r h
    cases hv : validate_duplicate_images d <;>
      simp [ret_validate_duplicate_images, Except.map, hv] at h
    simp [← h, isPairRet]

/-- Witness for C5 at concrete records. -/
theorem C5_witness :
    isPairRet (ret_is_valid_product_data (Json.obj [])) = false ∧
    isPairRet (CheckRet.rpair false (Reason.str "Image key cannot be null")) = true := by
  constructor
  · exact C5_return_shapes.1 (Json.obj [])
  · exact C5_return_shapes.2.2.2.1 [("image", Json.null)]
      (CheckRet.rpair false (Reason.str "Image key cannot be null")) rfl

/-- Claim C10: a record with no `product_id` key participates in the
uniqueness check with the null value as its ID, so of several such records
the first passes (inserting null into the shared set) and each later one
fails with reason "Duplicate product_id: None". -/
theorem C10_missing_id :
    ∀ d : Dict, dictHasKey d "product_id" = false → ∀ ids : List Json,
      (ids.any (fun x => pyEq Json.null x) = false →
        validate_product_id_uniqueness d ids = .ok ((true, ""), Json.null :: ids)) ∧
      (ids.any (fun x => pyEq Json.null x) = true →
        validate_product_id_uniqueness d ids =
          .ok ((false, "Duplicate product_id: None"), ids)) := by
  intro d h ids
  have hid : pyGet d "product_id" = Json.null := pyGet_of_hasKey_false h
  have hmsg : ("Duplicate product_id: " ++ pyRepr Json.null) =
      "Duplicate product_id: None" := by decide
  constructor
  · intro hm
    simp [validate_product_id_uniqueness, hid, hashable, pyKey, hm]
  · intro hm
    simp [validate_product_id_uniqueness, hid, hashable, pyKey, hm, hmsg]

/-- Witness for C10: two records with no `product_id`, processed in order. -/
theorem C10_witness :
    validate_product_id_uniqueness [("brand", Json.str "b")] [] =
      .ok ((true, ""), [Json.null]) ∧
    validate_product_id_uniqueness [("title", Json.str "t")] [Json.null] =
      .ok ((false, "Duplicate product_id: None"), [Json.null]) := by
  constructor
  · exact (C10_missing_id [("brand", Json.str "b")] rfl []).1 rfl
  · exact (C10_missing_id [("title", Json.str "t")] rfl [Json.null]).2 rfl

/-- Claim C4 (code bug): on a schema-conforming record whose `images` list
contains a nested list, the orchestrator does not signal a `(false, reason)`
outcome — the duplicate-image check raises `TypeError` when it hashes the
unhashable element, and the exception aborts the batch runner. -/
theorem C4_exception_on_unhashable_image :
    validate_pdp_data (Json.obj badImagesDict) [] =
      .error "TypeError: unhashable type" ∧
    run_batch [Json.obj badImagesDict] = .error "TypeError: unhashable type" ∧
    validate_duplicate_images badImagesDict = .error "TypeError: unhashable type" :=
  ⟨by rfl, by rfl, by rfl⟩

/-- Counterexample to C6 as stated: the failure reasons of the image check
are "Image key cannot be null" and "Images list should contain at least one
URL", not the strings the claim quotes. -/
theorem C6_counterexample :
    validate_image_data [("image", Json.null)] =
      .ok (false, "Image key cannot be null") ∧
    "Image key cannot be null" ≠ "image key null" ∧
    validate_image_data [("image", Json.str "http://x"), ("images", Json.list [])] =
      .ok (false, "Images list should contain at least one URL") ∧
    "Images list should contain at least one URL" ≠
      "images list should contain at least one URL" :=
  ⟨rfl, by decide, rfl, by decide⟩

/-- Claim C6 as amended: the image check fails with reason "Image key cannot
be null" when `image` is null or absent; otherwise fails with reason
"Images list should contain at least one URL" when the `images` value is
falsy (absent, null or empty) or is a list with no string entry starting
with "http"; otherwise succeeds with an empty reason. -/
theorem C6_image_check :
    (∀ d : Dict, pyGet d "image" = .null →
        validate_image_data d = .ok (false, "Image key cannot be null")) ∧
    (∀ d : Dict, pyGet d "image" ≠ .null →
        pyTruthy (pyGet d "images") = false →
        validate_image_data d =
          .ok (false, "Images list should contain at least one URL")) ∧
    (∀ (d : Dict) (xs : List Json), pyGet d "image" ≠ .null →
        pyGet d "images" = .list xs → xs.any isHttpStr = false →
        validate_image_data d =
          .ok (false, "Images list should contain at least one URL")) ∧
    (∀ (d : Dict) (xs : List Json), pyGet d "image" ≠ .null →
        pyGet d "images" = .list xs → xs.any isHttpStr = true →
        validate_image_data d = .ok (true, "")) := by
  refine ⟨?_, ?_, ?_, ?_⟩
  · intro d h
    simp [validate_image_data, h]
  · intro d h1 h2
    cases himg : pyGet d "image" <;>
      first
        | exact absurd himg h1
        | simp [validate_image_data, himg, h2]
  · intro d xs h1 h2 h3
    cases himg : pyGet d "image" <;>
      first
        | exact absurd himg h1
        | cases xs <;> simp [validate_image_data, himg, h2, pyTruthy, pyIter, h3]
  · intro d xs h1 h2 h3
    cases xs with
    | nil => simp at h3
    | cons a as =>
      cases himg : pyGet d "image" <;>
        first
          | exact absurd himg h1
          | simp [validate_image_data, himg, h2, pyTruthy, pyIter, h3]

/-- Witness for C6 at the spec's example images. -/
theorem C6_witness :
    validate_image_data [("image", Json.str "http://x"),
        ("images", Json.list [Json.str "http://a.jpg"])] = .ok (true, "") ∧
    validate_image_data [("image", Json.str "http://x"),
        ("images", Json.list [Json.int 3])] =
      .ok (false, "Images list should contain at least one URL") := by
  constructor
  · exact C6_image_check.2.2.2
      [("image", Json.str "http://x"), ("images", Json.list [Json.str "http://a.jpg"])]
      [Json.str "http://a.jpg"]
      (fun h => Json.noConfusion (show Json.str "http://x" = Json.null from h))
      rfl rfl
  · exact C6_image_check.2.2.1
      [("image", Json.str "http://x"), ("images", Json.list [Json.int 3])]
      [Json.int 3]
      (fun h => Json.noConfusion (show Json.str "http://x" = Json.null from h))
      rfl rfl

theorem filter_eq_nil_iff {α : Type} {l : List α} {p : α → Bool} :
    l.filter p = [] ↔ ∀ a ∈ l, p a = false := by
  induction l with
  | nil => simp
  | cons a l ih =>
    rw [List.filter_cons]
    by_cases hp : p a = true
    · simp [hp]
    · simp only [Bool.not_eq_true] at hp
      simp [hp, ih]

theorem fieldError_eq (d : Dict) (kts : String × TypeSpec) :
    fieldError d kts = if violB d kts then some (msgOf d kts) else none := by
  unfold fieldError violB msgOf
  by_cases h1 : dictHasKey d kts.1 = false
  · simp [h1]
  · simp only [Bool.not_eq_false] at h1
    by_cases h2 : kts.2.check (pyGet d kts.1) = false
    · simp [h1, h2]
    · simp only [Bool.not_eq_false] at h2
      simp [h1, h2]

theorem schema_eq (d : Dict) :
    validate_product_data_schema d =
      (if (schemaViolations d).isEmpty then
        (true, Reason.str "Product data schema is valid.")
       else (false, Reason.list ((schemaViolations d).map (msgOf d)))) := by
  unfold validate_product_data_schema schemaViolations
  rw [filterMap_if_eq (violB d) (msgOf d) (fieldError d) (fun a _ => fieldError_eq d a)]
  cases hf : expected_structure.filter (violB d) <;> simp [hf]

/-- Claim C2: the schema check examines all 16 expected fields without
short-circuiting, reports exactly one message per violating field (a
missing-key message when absent, a type-mismatch message otherwise), returns
the success outcome exactly when no field is violated, and the nullable
fields nutrition, ingredients and country_of_origin accept null. -/
theorem C2_schema_check :
    expected_structure.length = 16 ∧
    (∀ d : Dict, validate_product_data_schema d =
      (if (schemaViolations d).isEmpty then
        (true, Reason.str "Product data schema is valid.")
       else (false, Reason.list ((schemaViolations d).map (msgOf d))))) ∧
    (∀ (d : Dict) (L : List String),
      (validate_product_data_schema d).2 = Reason.list L →
      L.length = (schemaViolations d).length) ∧
    (∀ d : Dict,
      validate_product_data_schema d = (true, Reason.str "Product data schema is valid.") ↔
        ∀ kts ∈ expected_structure,
          dictHasKey d kts.1 = true ∧ kts.2.check (pyGet d kts.1) = true) ∧
    ((TypeSpec.pair .pdict .pnone).check Json.null = true ∧
     (TypeSpec.pair .plist .pnone).check Json.null = true ∧
     (TypeSpec.pair .pstr .pnone).check Json.null = true ∧
     ("nutrition", TypeSpec.pair .pdict .pnone) ∈ expected_structure ∧
     ("ingredients", TypeSpec.pair .plist .pnone) ∈ expected_structure ∧
     ("country_of_origin", TypeSpec.pair .pstr .pnone) ∈ expected_structure) := by
  refine ⟨rfl, schema_eq, ?_, ?_, by decide⟩
  · intro d L h
    rw [schema_eq] at h
    cases hf : (schemaViolations d).isEmpty <;> simp [hf] at h
    rw [← h, List.length_map]
  · intro d
    rw [schema_eq]
    have hviol : (∀ kts ∈ expected_structure, violB d kts = false) ↔
        (∀ kts ∈ expected_structure,
          dictHasKey d kts.1 = true ∧ kts.2.check (pyGet d kts.1) = true) := by
      constructor
      · intro h kts hk
        have h2 := h kts hk
        cases ha : dictHasKey d kts.1 <;>
          cases hb : kts.2.check (pyGet d kts.1) <;>
          simp_all [violB]
      · intro h kts hk
        have h2 := h kts hk
        cases ha : dictHasKey d kts.1 <;>
          cases hb : kts.2.check (pyGet d kts.1) <;>
          simp_all [violB]
    cases hf : (schemaViolations d).isEmpty with
    | true =>
      have hnil : schemaViolations d = [] := by
        cases hL : schemaViolations d with
        | nil => rfl
        | cons a t => rw [hL] at hf; simp [List.isEmpty] at hf
      have hall := hviol.mp (filter_eq_nil_iff.mp hnil)
      rw [if_pos rfl]
      constructor
      · intro _
        exact hall
      · intro _
        rfl
    | false =>
      rw [if_neg (by simp)]
      constructor
      · intro h
        exact absurd (congrArg Prod.fst h) (by simp)
      · intro h
        have hnil : schemaViolations d = [] := filter_eq_nil_iff.mpr (hviol.mpr h)
        rw [hnil] at hf
        simp at hf

/-- Witness for C2: a record with exactly two violations, and a fully
conforming record. -/
theorem C2_witness :
    validate_product_data_schema twoViolDict =
      (false, Reason.list
        [mismatchMsg "brand" (TypeSpec.single PyClass.pstr) (Json.int 1),
         missingMsg "title"]) ∧
    (schemaViolations twoViolDict).length = 2 ∧
    validate_product_data_schema sampleDict =
      (true, Reason.str "Product data schema is valid.") := by
  refine ⟨?_, by rfl, ?_⟩
  · rw [C2_schema_check.2.1 twoViolDict]
    rfl
  · exact (C2_schema_check.2.2.2.1 sampleDict).mpr
      (by intro kts h; fin_cases h <;> exact ⟨rfl, rfl⟩)

theorem list_any_congr {α : Type} {l : List α} {p q : α → Bool}
    (h : ∀ a ∈ l, p a = q a) : l.any p = l.any q := by
  induction l with
  | nil => rfl
  | cons a l ih =>
    simp only [List.any_cons]
    rw [h a (by simp), ih (fun a ha => h a (by simp [ha]))]

theorem pyEq_congr {a b : Json} (h : pyEq a b = true) (x : Json) :
    pyEq a x = pyEq b x := by
  unfold pyEq at h ⊢
  cases hka : pyKey a with
  | none => rw [hka] at h; exact absurd h (by simp)
  | some ka =>
    cases hkb : pyKey b with
    | none => rw [hka, hkb] at h; exact absurd h (by simp)
    | some kb =>
      rw [hka, hkb] at h
      have hk : ka = kb := of_decide_eq_true h
      rw [hk]

theorem uniq_step {d : Dict} (h : hashable (pyGet d "product_id") = true)
    (ids : List Json) :
    validate_product_id_uniqueness d ids =
      (if ids.any (fun x => pyEq (pyGet d "product_id") x) then
        .ok ((false, "Duplicate product_id: " ++ pyRepr (pyGet d "product_id")), ids)
       else .ok ((true, ""), pyGet d "product_id" :: ids)) := by
  simp only [validate_product_id_uniqueness]
  rw [h]
  simp

theorem run_vs_spec :
    ∀ (batch : List Dict) (ids seen : List Json),
      (∀ d ∈ batch, hashable (pyGet d "product_id") = true) →
      (∀ x, ids.any (fun y => pyEq x y) = seen.any (fun y => pyEq x y)) →
      uniqueness_run batch ids = .ok (uniqueness_spec_outs (pidsOf batch) seen) := by
  intro batch
  induction batch with
  | nil => intro ids seen _ _; rfl
  | cons d rest ih =>
    intro ids seen hh hinv
    have hd : hashable (pyGet d "product_id") = true := hh d (by simp)
    have hrest : ∀ d2 ∈ rest, hashable (pyGet d2 "product_id") = true :=
      fun d2 h2 => hh d2 (by simp [h2])
    have hmem := hinv (pyGet d "product_id")
    cases hs : seen.any (fun y => pyEq (pyGet d "product_id") y) with
    | true =>
      have hids : ids.any (fun y => pyEq (pyGet d "product_id") y) = true := by
        rw [hmem, hs]
      have hinv2 : ∀ x, ids.any (fun y => pyEq x y) =
          (seen ++ [pyGet d "product_id"]).any (fun y => pyEq x y) := by
        intro x
        rw [List.any_append]
        cases hq : pyEq x (pyGet d "product_id") with
        | true =>
          have h1 : ids.any (fun y => pyEq x y) = true := by
            rw [list_any_congr (fun a _ => pyEq_congr hq a), hids]
          have h2 : seen.any (fun y => pyEq x y) = true := by
            rw [list_any_congr (fun a _ => pyEq_congr hq a), hs]
          simp [h1, h2]
        | false =>
          simp [List.any_cons, hq, hinv x]
      have hrec := ih ids (seen ++ [pyGet d "product_id"]) hrest hinv2
      simp [uniqueness_run, uniq_step hd, hids, hrec,
        pidsOf, uniqueness_spec_outs, expectedOut, hs]
    | false =>
      have hids : ids.any (fun y => pyEq (pyGet d "product_id") y) = false := by
        rw [hmem, hs]
      have hinv2 : ∀ x, (pyGet d "product_id" :: ids).any (fun y => pyEq x y) =
          (seen ++ [pyGet d "product_id"]).any (fun y => pyEq x y) := by
        intro x
        rw [List.any_append, List.any_cons, hinv x]
        simp [List.any_cons, Bool.or_comm]
      have hrec := ih (pyGet d "product_id" :: ids)
        (seen ++ [pyGet d "product_id"]) hrest hinv2
      simp [uniqueness_run, uniq_step hd, hids, hrec,
        pidsOf, uniqueness_spec_outs, expectedOut, hs]

theorem spec_outs_getD :
    ∀ (pids : List Json) (seen : List Json) (i : Nat), i < pids.length →
      (uniqueness_spec_outs pids seen).getD i (true, "") =
        expectedOut (seen ++ pids.take i) (pids.getD i .null) := by
  intro pids
  induction pids with
  | nil => intro seen i hi; exact absurd hi (by simp)
  | cons pid rest ih =>
    intro seen i hi
    cases i with
    | zero => simp [uniqueness_spec_outs, List.getD]
    | succ j =>
      have hj : j < rest.length := by simpa using hi
      have h2 := ih (seen ++ [pid]) j hj
      rw [List.append_assoc] at h2
      simp only [uniqueness_spec_outs, List.getD_cons_succ, List.take_succ_cons]
      rw [h2]
      rfl

/-- Counterexample to C3 as stated: the failure reason is
"Duplicate product_id: <id>" with a capital D, not "duplicate product_id: <id>". -/
theorem C3_counterexample :
    uniqueness_run [[("product_id", Json.int 1)], [("product_id", Json.int 1)]] [] =
      .ok [(true, ""), (false, "Duplicate product_id: 1")] ∧
    "Duplicate product_id: 1" ≠ "duplicate product_id: 1" :=
  ⟨by rfl, by decide⟩

/-- Claim C3 as amended: threading one seen-ID set across a batch, the
uniqueness check succeeds and inserts the ID when the record's product_id has
not occurred before, and fails with reason "Duplicate product_id: <id>"
exactly on records whose product_id already occurred in an earlier record. -/
theorem C3_uniqueness :
    (∀ (d : Dict) (ids ids2 : List Json) (m : String),
        validate_product_id_uniqueness d ids = .ok ((true, m), ids2) →
        ids2 = pyGet d "product_id" :: ids) ∧
    (∀ batch : List Dict,
        (∀ d ∈ batch, hashable (pyGet d "product_id") = true) →
        uniqueness_run batch [] = .ok (uniqueness_spec_outs (pidsOf batch) [])) ∧
    (∀ (pids : List Json) (i : Nat), i < pids.length →
        (uniqueness_spec_outs pids []).getD i (true, "") =
          expectedOut (pids.take i) (pids.getD i .null)) := by
  refine ⟨?_, ?_, ?_⟩
  · intro d ids ids2 m h
    simp only [validate_product_id_uniqueness] at h
    by_cases hh : hashable (pyGet d "product_id") = false
    · rw [if_pos hh] at h
      exact absurd h (by simp)
    · rw [if_neg hh] at h
      by_cases hm : ids.any (fun x => pyEq (pyGet d "product_id") x) = true
      · rw [if_pos hm] at h
        simp at h
      · rw [if_neg hm] at h
        simp at h
        exact h.2.symm
  · intro batch hh
    exact run_vs_spec batch [] [] hh (fun x => rfl)
  · intro pids i hi
    have := spec_outs_getD pids [] i hi
    rwa [List.nil_append] at this

/-- Witness for C3 at the spec's `[1, 2, 1]` batch. -/
theorem C3_witness :
    uniqueness_run batch121 [] =
      .ok [(true, ""), (true, ""), (false, "Duplicate product_id: 1")] ∧
    expectedOut ((pidsOf batch121).take 2) ((pidsOf batch121).getD 2 .null) =
      (false, "Duplicate product_id: 1") := by
  constructor
  · have h := C3_uniqueness.2.1 batch121
      (by intro d hd; simp [batch121] at hd; rcases hd with rfl | rfl | rfl <;> rfl)
    rw [h]
    rfl
  · have h := C3_uniqueness.2.2 (pidsOf batch121) 2 (by simp [pidsOf, batch121])
    rw [← h]
    rfl

theorem sBodyB_true_iff : ∀ t : List Char, sBodyB t = true ↔ BodyA t := by
  intro t
  induction t with
  | nil =>
    constructor
    · intro h
      exact absurd h (by decide)
    · rintro ⟨core, hor, hne, -⟩
      rcases hor with h | h
      · exact absurd h.symm hne
      · exact absurd h (by simp)
  | cons c rest ih =>
    cases rest with
    | nil =>
      constructor
      · intro h
        have hc : isPyWhitespace c = false := by simpa [sBodyB] using h
        refine ⟨[c], Or.inl rfl, by simp, ?_⟩
        intro x hx
        rcases List.mem_singleton.mp hx with rfl
        exact hc
      · rintro ⟨core, hor, hne, hws⟩
        rcases hor with h | h
        · have hc : isPyWhitespace c = false := hws c (by rw [← h]; simp)
          simpa [sBodyB] using hc
        · have hcore : core = [] := by
            have hl := congrArg List.length h
            simp at hl
            exact hl
          exact absurd hcore hne
    | cons d r =>
      have heq : sBodyB (c :: d :: r) =
          (!isPyWhitespace c && (((d :: r : List Char) == ['\n']) || sBodyB (d :: r))) := rfl
      constructor
      · intro h
        rw [heq] at h
        obtain ⟨ha, hb⟩ := Bool.and_eq_true_iff.mp h
        have hc : isPyWhitespace c = false := by simpa using ha
        rcases Bool.or_eq_true_iff.mp hb with hnl | hrec
        · have hdr : (d :: r) = ['\n'] := eq_of_beq hnl
          refine ⟨[c], Or.inr ?_, by simp, ?_⟩
          · rw [hdr]
            rfl
          · intro x hx
            rcases List.mem_singleton.mp hx with rfl
            exact hc
        · obtain ⟨core2, hor2, hne2, hws2⟩ := ih.mp hrec
          refine ⟨c :: core2, ?_, by simp, ?_⟩
          · rcases hor2 with h2 | h2
            · exact Or.inl (by rw [← h2])
            · refine Or.inr ?_
              rw [show (c :: core2) ++ ['\n'] = c :: (core2 ++ ['\n']) from rfl, ← h2]
          · intro x hx
            rcases List.mem_cons.mp hx with rfl | hx2
            · exact hc
            · exact hws2 x hx2
      · rintro ⟨core, hor, hne, hws⟩
        rw [heq]
        rcases hor with h | h
        · have hc : isPyWhitespace c = false := hws c (by rw [← h]; simp)
          have hbody : BodyA (d :: r) := by
            refine ⟨d :: r, Or.inl rfl, by simp, ?_⟩
            intro x hx
            apply hws
            rw [← h]
            exact List.mem_cons_of_mem c hx
          have hrec := ih.mpr hbody
          simp [hc, hrec]
        · cases core with
          | nil => exact absurd rfl hne
          | cons c0 core2 =>
            have h2 : c :: d :: r = c0 :: (core2 ++ ['\n']) := h
            injection h2 with hch htl
            subst hch
            have hc : isPyWhitespace c = false := hws c (by simp)
            cases core2 with
            | nil =>
              have hdr : ((d :: r : List Char) == ['\n']) = true := by
                simp only [List.nil_append] at htl
                exact beq_iff_eq.mpr htl
              simp [hc, hdr]
            | cons c1 core3 =>
              have hbody : BodyA (d :: r) := by
                refine ⟨c1 :: core3, Or.inr htl, by simp, ?_⟩
                intro x hx
                exact hws x (List.mem_cons_of_mem c hx)
              have hrec := ih.mpr hbody
              simp [hc, hrec]

theorem urlMatch_true_iff (s : String) : urlMatch s = true ↔ UrlA s := by
  by_cases h1 : s.data.take 7 = "http://".data
  · have hdec : s.data = "http://".data ++ s.data.drop 7 := by
      conv_lhs => rw [← List.take_append_drop 7 s.data]
      rw [h1]
    rw [show urlMatch s = sBodyB (s.data.drop 7) from by simp [urlMatch, h1]]
    constructor
    · intro h
      exact ⟨s.data.drop 7, Or.inl hdec, (sBodyB_true_iff _).mp h⟩
    · rintro ⟨t, hor, hbody⟩
      rcases hor with h | h
      · have ht : s.data.drop 7 = t := by rw [h]; rfl
        rw [ht]
        exact (sBodyB_true_iff t).mpr hbody
      · have h7 : s.data.take 7 = "https:/".data := by rw [h]; rfl
        rw [h1] at h7
        exact absurd h7 (by decide)
  · by_cases h2 : s.data.take 8 = "https://".data
    · have hdec : s.data = "https://".data ++ s.data.drop 8 := by
        conv_lhs => rw [← List.take_append_drop 8 s.data]
        rw [h2]
      rw [show urlMatch s = sBodyB (s.data.drop 8) from by simp [urlMatch, h1, h2]]
      constructor
      · intro h
        exact ⟨s.data.drop 8, Or.inr hdec, (sBodyB_true_iff _).mp h⟩
      · rintro ⟨t, hor, hbody⟩
        rcases hor with h | h
        · have h7 : s.data.take 7 = "http://".data := by rw [h]; rfl
          exact absurd h7 h1
        · have ht : s.data.drop 8 = t := by rw [h]; rfl
          rw [ht]
          exact (sBodyB_true_iff t).mpr hbody
    · rw [show urlMatch s = false from by simp [urlMatch, h1, h2]]
      constructor
      · intro h
        exact absurd h (by simp)
      · rintro ⟨t, hor, -⟩
        rcases hor with h | h
        · have h7 : s.data.take 7 = "http://".data := by rw [h]; rfl
          exact absurd h7 h1
        · have h8 : s.data.take 8 = "https://".data := by rw [h]; rfl
          exact absurd h8 h2

/-- Counterexample to C7 as stated: Python regex `$` also matches just
before a final newline, so the code accepts "http://a" followed by a newline
even though the newline is whitespace and the non-whitespace characters do
not extend to the end of the string. -/
theorem C7_counterexample :
    validate_url_format [("url", Json.str "http://a\n")] = .ok (true, "") ∧
    urlOrigB "http://a\n" = false ∧
    isPyWhitespace '\n' = true :=
  ⟨by rfl, by decide, by decide⟩

/-- Claim C7 as amended: the URL check succeeds for an absent url; for a
present url string it succeeds iff the url is `http` or `https`, then
`://`, then one or more non-whitespace characters extending to the end of
the string or to a single final newline; otherwise it fails with reason
"URL should be in standardized format (e.g., http://example.com)". -/
theorem C7_url_format :
    (∀ d : Dict, dictHasKey d "url" = false →
        validate_url_format d = .ok (true, "")) ∧
    (∀ (d : Dict) (s : String), pyGet d "url" = .str s →
        (validate_url_format d = .ok (true, "") ↔ UrlA s)) ∧
    (∀ (d : Dict) (s : String), pyGet d "url" = .str s → ¬ UrlA s →
        validate_url_format d =
          .ok (false, "URL should be in standardized format (e.g., http://example.com)")) := by
  refine ⟨?_, ?_, ?_⟩
  · intro d h
    simp [validate_url_format, pyGet_of_hasKey_false h]
  · intro d s h
    constructor
    · intro hv
      cases hm : urlMatch s with
      | true => exact (urlMatch_true_iff s).mp hm
      | false =>
        rw [show validate_url_format d =
            .ok (false, "URL should be in standardized format (e.g., http://example.com)")
          from by simp [validate_url_format, h, hm]] at hv
        simp at hv
    · intro hu
      have hm : urlMatch s = true := (urlMatch_true_iff s).mpr hu
      simp [validate_url_format, h, hm]
  · intro d s h hu
    have hm : urlMatch s = false := by
      cases hm : urlMatch s with
      | true => exact absurd ((urlMatch_true_iff s).mp hm) hu
      | false => rfl
    simp [validate_url_format, h, hm]

/-- Witness for C7 at the spec's example URLs. -/
theorem C7_witness :
    validate_url_format [] = .ok (true, "") ∧
    validate_url_format [("url", Json.str "http://example.com")] = .ok (true, "") ∧
    validate_url_format [("url", Json.str "ftp://example.com")] =
      .ok (false, "URL should be in standardized format (e.g., http://example.com)") ∧
    validate_url_format [("url", Json.str "http://a b")] =
      .ok (false, "URL should be in standardized format (e.g., http://example.com)") := by
  refine ⟨?_, ?_, ?_, ?_⟩
  · exact C7_url_format.1 [] rfl
  · refine (C7_url_format.2.1 [("url", Json.str "http://example.com")]
      "http://example.com" rfl).mpr ?_
    refine ⟨"example.com".data, Or.inl (by decide), "example.com".data,
      Or.inl rfl, by decide, by decide⟩
  · refine C7_url_format.2.2 [("url", Json.str "ftp://example.com")]
      "ftp://example.com" rfl ?_
    intro hu
    exact absurd ((urlMatch_true_iff "ftp://example.com").mpr hu) (by decide)
  · refine C7_url_format.2.2 [("url", Json.str "http://a b")]
      "http://a b" rfl ?_
    intro hu
    exact absurd ((urlMatch_true_iff "http://a b").mpr hu) (by decide)

theorem is_valid_cons_other {k0 : String} (v : Json) (d : Dict)
    (h : ∀ k ∈ required_keys, (k0 == k) = false) :
    is_valid_product_data (.obj ((k0, v) :: d)) = is_valid_product_data (.obj d) := by
  simp only [is_valid_product_data]
  exact list_all_congr (fun k hk => dictHasKey_cons_ne v d (h k hk))

theorem schema_cons_other {k0 : String} (v : Json) (d : Dict)
    (h : ∀ kts ∈ expected_structure, (k0 == kts.1) = false) :
    validate_product_data_schema ((k0, v) :: d) = validate_product_data_schema d := by
  unfold validate_product_data_schema
  have he : expected_structure.filterMap (fieldError ((k0, v) :: d)) =
      expected_structure.filterMap (fieldError d) := by
    apply list_filterMap_congr
    intro kts hk
    unfold fieldError
    rw [dictHasKey_cons_ne v d (h kts hk), pyGet_cons_ne v d (h kts hk)]
  rw [he]

theorem image_cons_other {k0 : String} (v : Json) (d : Dict)
    (h1 : (k0 == "image") = false) (h2 : (k0 == "images") = false) :
    validate_image_data ((k0, v) :: d) = validate_image_data d := by
  unfold validate_image_data
  rw [pyGet_cons_ne v d h1, pyGet_cons_ne v d h2]

theorem url_cons_other {k0 : String} (v : Json) (d : Dict)
    (h : (k0 == "url") = false) :
    validate_url_format ((k0, v) :: d) = validate_url_format d := by
  unfold validate_url_format
  rw [pyGet_cons_ne v d h]

theorem uniq_cons_other {k0 : String} (v : Json) (d : Dict)
    (h : (k0 == "product_id") = false) (ids : List Json) :
    validate_product_id_uniqueness ((k0, v) :: d) ids =
      validate_product_id_uniqueness d ids := by
  unfold validate_product_id_uniqueness
  rw [pyGet_cons_ne v d h]

theorem dup_cons_other {k0 : String} (v : Json) (d : Dict)
    (h : (k0 == "images") = false) :
    validate_duplicate_images ((k0, v) :: d) = validate_duplicate_images d := by
  unfold validate_duplicate_images
  rw [pyGet_cons_ne v d h]

theorem pdp_obj_cons_other {k0 : String} (v : Json) (d : Dict) (ids : List Json)
    (hsch : ∀ kts ∈ expected_structure, (k0 == kts.1) = false)
    (him : (k0 == "image") = false) (hims : (k0 == "images") = false)
    (hurl : (k0 == "url") = false) (hpid : (k0 == "product_id") = false) :
    validate_pdp_obj ((k0, v) :: d) ids = validate_pdp_obj d ids := by
  unfold validate_pdp_obj
  rw [schema_cons_other v d hsch, image_cons_other v d him hims,
    url_cons_other v d hurl, uniq_cons_other v d hpid ids, dup_cons_other v d hims]

/-- Counterexample to C1 as stated: when every invoked check passes, the
orchestrator returns the reason "Product data is valid" (capital P), not
"product data is valid". -/
theorem C1_counterexample :
    validate_pdp_data (Json.obj sampleDict) [] =
      .ok ((true, .str "Product data is valid"), [Json.int 1]) ∧
    "Product data is valid" ≠ "product data is valid" :=
  ⟨by rfl, by decide⟩

/-- Claim C1 as amended: the orchestrator runs structural presence, schema,
image, URL, uniqueness and duplicate-image checks in that fixed order,
short-circuits on the first failure returning (false, that reason), returns
(true, "Product data is valid") when every invoked check passes, and never
reads the price fields, so the price consistency check (4.3) is never
invoked. -/
theorem C1_orchestrator :
    (∀ (j : Json) (ids : List Json), is_valid_product_data j = false →
        validate_pdp_data j ids =
          .ok ((false, .str "Invalid product data structure"), ids)) ∧
    (∀ (d : Dict) (ids : List Json) (r : Reason),
        is_valid_product_data (.obj d) = true →
        validate_product_data_schema d = (false, r) →
        validate_pdp_data (.obj d) ids = .ok ((false, r), ids)) ∧
    (∀ (d : Dict) (ids : List Json) (r0 : Reason) (m : String),
        is_valid_product_data (.obj d) = true →
        validate_product_data_schema d = (true, r0) →
        validate_image_data d = .ok (false, m) →
        validate_pdp_data (.obj d) ids = .ok ((false, .str m), ids)) ∧
    (∀ (d : Dict) (ids : List Json) (r0 : Reason) (m1 m : String),
        is_valid_product_data (.obj d) = true →
        validate_product_data_schema d = (true, r0) →
        validate_image_data d = .ok (true, m1) →
        validate_url_format d = .ok (false, m) →
        validate_pdp_data (.obj d) ids = .ok ((false, .str m), ids)) ∧
    (∀ (d : Dict) (ids ids2 : List Json) (r0 : Reason) (m1 m2 m : String),
        is_valid_product_data (.obj d) = true →
        validate_product_data_schema d = (true, r0) →
        validate_image_data d = .ok (true, m1) →
        validate_url_format d = .ok (true, m2) →
        validate_product_id_uniqueness d ids = .ok ((false, m), ids2) →
        validate_pdp_data (.obj d) ids = .ok ((false, .str m), ids2)) ∧
    (∀ (d : Dict) (ids ids2 : List Json) (r0 : Reason) (m1 m2 m3 m : String),
        is_valid_product_data (.obj d) = true →
        validate_product_data_schema d = (true, r0) →
        validate_image_data d = .ok (true, m1) →
        validate_url_format d = .ok (true, m2) →
        validate_product_id_uniqueness d ids = .ok ((true, m3), ids2) →
        validate_duplicate_images d = .ok (false, m) →
        validate_pdp_data (.obj d) ids = .ok ((false, .str m), ids2)) ∧
    (∀ (d : Dict) (ids ids2 : List Json) (r0 : Reason) (m1 m2 m3 m4 : String),
        is_valid_product_data (.obj d) = true →
        validate_product_data_schema d = (true, r0) →
        validate_image_data d = .ok (true, m1) →
        validate_url_format d = .ok (true, m2) →
        validate_product_id_uniqueness d ids = .ok ((true, m3), ids2) →
        validate_duplicate_images d = .ok (true, m4) →
        validate_pdp_data (.obj d) ids =
          .ok ((true, .str "Product data is valid"), ids2)) ∧
    (∀ (d : Dict) (ids : List Json) (v : Json),
        validate_pdp_data (.obj (("selling_price", v) :: d)) ids =
          validate_pdp_data (.obj d) ids) ∧
    (∀ (d : Dict) (ids : List Json) (v : Json),
        validate_pdp_data (.obj (("original_price", v) :: d)) ids =
          validate_pdp_data (.obj d) ids) := by
  refine ⟨?_, ?_, ?_, ?_, ?_, ?_, ?_, ?_, ?_⟩
  · intro j ids h
    cases j <;> first | rfl | simp [validate_pdp_data, h]
  · intro d ids r h1 h2
    simp [validate_pdp_data, h1, validate_pdp_obj, h2]
  · intro d ids r0 m h1 h2 h3
    simp [validate_pdp_data, h1, validate_pdp_obj, h2, h3]
  · intro d ids r0 m1 m h1 h2 h3 h4
    simp [validate_pdp_data, h1, validate_pdp_obj, h2, h3, h4]
  · intro d ids ids2 r0 m1 m2 m h1 h2 h3 h4 h5
    simp [validate_pdp_data, h1, validate_pdp_obj, h2, h3, h4, h5]
  · intro d ids ids2 r0 m1 m2 m3 m h1 h2 h3 h4 h5 h6
    simp [validate_pdp_data, h1, validate_pdp_obj, h2, h3, h4, h5, h6]
  · intro d ids ids2 r0 m1 m2 m3 m4 h1 h2 h3 h4 h5 h6
    simp [validate_pdp_data, h1, validate_pdp_obj, h2, h3, h4, h5, h6]
  · intro d ids v
    simp only [validate_pdp_data]
    rw [is_valid_cons_other v d (by decide),
      pdp_obj_cons_other v d ids (by decide) (by decide) (by decide)
        (by decide) (by decide)]
  · intro d ids v
    simp only [validate_pdp_data]
    rw [is_valid_cons_other v d (by decide),
      pdp_obj_cons_other v d ids (by decide) (by decide) (by decide)
        (by decide) (by decide)]

/-- Witness for C1: a record on which every invoked check passes, and
price-field independence at a concrete record. -/
theorem C1_witness :
    validate_pdp_data (Json.obj sampleDict) [] =
      .ok ((true, .str "Product data is valid"), [Json.int 1]) ∧
    validate_pdp_data (Json.obj (("selling_price", Json.int 99) :: sampleDict)) [] =
      validate_pdp_data (Json.obj sampleDict) [] := by
  constructor
  · exact C1_orchestrator.2.2.2.2.2.2.1 sampleDict [] [Json.int 1]
      (Reason.str "Product data schema is valid.") "" "" "" ""
      rfl rfl rfl rfl rfl rfl
  · exact C1_orchestrator.2.2.2.2.2.2.2.1 sampleDict [] (Json.int 99)

end TJ
